import Mathlib

/-
  Verification of the signal-to-order pipeline of a webhook-driven trading
  signal relay (Flask + SQLite).  The Python source is shallowly embedded:

  * Python floats are modelled as rationals (all arithmetic in the claims is
    exact on the inputs considered);
  * the SQLite `trades` and `strategies` tables are modelled as Lean lists of
    rows, in rowid (insertion) order, which is also id-ascending order for the
    AUTOINCREMENT primary keys;
  * Python `int(x)` is truncation toward zero, Python `//` is floor division
    (`Int.fdiv`);
  * code that can raise an uncaught exception returns an `Option` / explicit
    outcome type, `none` (or a dedicated constructor) marking the raise.
-/

namespace TradingPlatform

/-- Python `int(x)` applied to a float: truncation toward zero. -/
def pyInt (q : ℚ) : ℤ := if 0 ≤ q then ⌊q⌋ else ⌈q⌉

/-! ## Data model: rows of the `trades` table (main.py, `init_db`) -/

/-- A row of the SQLite `trades` table.  `date` models `DATE(timestamp)`,
the calendar day of the row's timestamp. -/
structure Trade where
  signal_id : ℤ
  broker : String
  order_id : Option String
  symbol : String
  side : String
  quantity : ℤ
  price : ℚ
  status : String
  trading_mode : String
  date : String
deriving DecidableEq

/-! ## RiskManager.check_daily_loss_limit (utils.py lines 74-92) -/

/-- The per-row term of the SQL aggregate
`SUM((price * quantity) * CASE WHEN side = 'SELL' THEN 1 ELSE -1 END)`. -/
def tradePnlTerm (t : Trade) : ℚ :=
  (t.price * t.quantity) * (if t.side = "SELL" then 1 else -1)

/-- The SQL `WHERE DATE(timestamp) = today AND trading_mode = 'live' AND
status = 'filled'` row filter. -/
def liveFilledOn (today : String) (t : Trade) : Bool :=
  t.date = today && t.trading_mode = "live" && t.status = "filled"

/-- The SQL query of `check_daily_loss_limit`: `SUM(...)` over the filtered
rows; SQL `SUM` over an empty row set is NULL, modelled as `none`. -/
def dailyPnlQuery (db : List Trade) (today : String) : Option ℚ :=
  let rows := db.filter (liveFilledOn today)
  if rows.isEmpty then none else some ((rows.map tradePnlTerm).sum)

/-- Model of `RiskManager.check_daily_loss_limit`.  The Python
`daily_pnl = result[0] if result[0] else 0` maps both NULL and a zero sum to
0 (truthiness); the check passes when `daily_pnl > -max_daily_loss`. -/
def check_daily_loss_limit (db : List Trade) (today : String)
    (max_daily_loss : ℚ) : Bool :=
  let result := dailyPnlQuery db today
  let daily_pnl : ℚ :=
    match result with
    | some p => if p = 0 then 0 else p
    | none => 0
  decide (daily_pnl > -max_daily_loss)

/-- The spec's realized P&L for a calendar day: the signed sum over live,
filled trades of that day, an empty sum being 0. -/
def specDailyPnl (db : List Trade) (today : String) : ℚ :=
  ((db.filter (liveFilledOn today)).map tradePnlTerm).sum

/-- The two live filled trades of the claim's worked example: (SELL, qty=10,
price=100) and (BUY, qty=5, price=100), both on day "2025-01-02". -/
def exampleDayTrades : List Trade :=
  [ { signal_id := 1, broker := "zerodha", order_id := some "o1",
      symbol := "RELIANCE", side := "SELL", quantity := 10, price := 100,
      status := "filled", trading_mode := "live", date := "2025-01-02" },
    { signal_id := 2, broker := "zerodha", order_id := some "o2",
      symbol := "RELIANCE", side := "BUY", quantity := 5, price := 100,
      status := "filled", trading_mode := "live", date := "2025-01-02" } ]

/-! ## RiskManager.check_symbol_allowed (utils.py lines 94-102) -/

/-- Model of `RiskManager.check_symbol_allowed`.  Python truthiness of a list is
non-emptiness, so `config['blocked_symbols'] and symbol in ...` reads as
"the block list is non-empty and contains the symbol". -/
def check_symbol_allowed (symbol : String)
    (allowed_symbols blocked_symbols : List String) : Bool :=
  if blocked_symbols ≠ [] ∧ symbol ∈ blocked_symbols then false
  else if allowed_symbols ≠ [] ∧ symbol ∉ allowed_symbols then false
  else true

/-! ## Data model: rows of the `strategies` table (main.py, `init_db`) -/

/-- A row of the SQLite `strategies` table, in column order. -/
structure Strategy where
  id : ℤ
  name : String
  exchange : String
  instrument_type : String
  symbol : String
  signal_source : String
  position_size_type : String
  position_size : ℚ
  order_type : String
  product_type : String
  stop_loss : Option ℚ
  target : Option ℚ
  trailing_stop_loss : Option ℚ
  entry_condition : Option String
  exit_condition : Option String
  is_active : Bool
  created_at : String
deriving DecidableEq

/-! ## Position sizing (main.py `_execute_strategy` lines 300-305) -/

/-- Outcome of the position-size computation.  The source has no error
branch: on `position_size_type = 'quantity'` it runs `int(position_size)`;
otherwise it runs `int(position_size / price)`, which raises an uncaught
`ZeroDivisionError` when `price` is exactly 0 (`zeroDivFault`).  There is no
`SizingError` anywhere in the source. -/
inductive SizeOutcome where
  | ok (q : ℤ)
  | zeroDivFault
deriving DecidableEq

/-- The sizing step of `SignalProcessor._execute_strategy`:
`quantity = int(strategy[7])` when `strategy[6] == 'quantity'`, else
`quantity = int(strategy[7] / price)`. -/
def computeQuantity (st : Strategy) (price : ℚ) : SizeOutcome :=
  if st.position_size_type = "quantity" then .ok (pyInt st.position_size)
  else if price = 0 then .zeroDivFault
  else .ok (pyInt (st.position_size / price))

/-! ## PositionCalculator.calculate_quantity_from_amount (utils.py 255-259) -/

/-- Model of `PositionCalculator.calculate_quantity_from_amount`:
`base_quantity = int(amount / price); return (base_quantity // lot_size) *
lot_size`.  Python `//` is floor division, `Int.fdiv`.  A zero `price` or
`lot_size` would raise `ZeroDivisionError`; the claim only quantifies over
positive price and `lot_size ≥ 1`, where no raise occurs. -/
def calculate_quantity_from_amount (amount price : ℚ) (lot_size : ℤ) : ℤ :=
  let base_quantity := pyInt (amount / price)
  (base_quantity.fdiv lot_size) * lot_size

/-! ## Signal validation (utils.py `SignalValidator`) -/

/-- Result of Python `float(x)` when it succeeds: a finite value, an
infinity (strings like "inf"/"-inf" parse), or NaN ("nan" parses). -/
inductive PyFloat where
  | finite (q : ℚ)
  | inf
  | negInf
  | nan
deriving DecidableEq

/-- The `price` field of an inbound payload, abstracted by how Python
`float(data['price'])` behaves on it: either it succeeds with some
`PyFloat`, or it raises `ValueError`/`TypeError`. -/
inductive PriceField where
  | floatable (v : PyFloat)
  | unfloatable
deriving DecidableEq

/-- A character accepted by the character class of `^[A-Z0-9_-]+$`. -/
def symbolClassChar (c : Char) : Bool :=
  decide (('A' ≤ c ∧ c ≤ 'Z') ∨ ('0' ≤ c ∧ c ≤ '9') ∨ c = '_' ∨ c = '-')

/-- The regex match `re.match(r'^[A-Z0-9_-]+$', s)` viewed as a Boolean: a non-empty string
all of whose characters are uppercase letters, digits, underscore or
hyphen. -/
def matchesSymbolRegex (s : String) : Bool :=
  s ≠ "" && s.toList.all symbolClassChar

/-- An inbound Chartink webhook payload, restricted to the four fields the
validator inspects; `none` models an absent key. -/
structure ChartinkPayload where
  symbol : Option String
  signal_type : Option String
  price : Option PriceField
  timestamp : Option String
deriving DecidableEq

/-- Model of `SignalValidator.validate_chartink_signal`: all four required fields
present; `signal_type` in `['BUY', 'SELL']`; `float(data['price'])` does not
raise (no sign or finiteness check in the source); symbol matches
`^[A-Z0-9_-]+$`. -/
def validate_chartink_signal (d : ChartinkPayload) : Bool :=
  d.symbol.isSome && d.signal_type.isSome && d.price.isSome &&
  d.timestamp.isSome &&
  (d.signal_type = some "BUY" || d.signal_type = some "SELL") &&
  (match d.price with
   | some (.floatable _) => true
   | _ => false) &&
  (match d.symbol with
   | some s => matchesSymbolRegex s
   | none => false)

/-- The validation predicate in the words of the claim: the four fields
present, `signal_type` exactly BUY or SELL, the price a POSITIVE FINITE
number, and the symbol matching the regex.  Kept separate from
`validate_chartink_signal` (which follows the source) so the two can be
compared. -/
def chartinkClaimValid (d : ChartinkPayload) : Bool :=
  d.symbol.isSome && d.signal_type.isSome && d.price.isSome &&
  d.timestamp.isSome &&
  (d.signal_type = some "BUY" || d.signal_type = some "SELL") &&
  (match d.price with
   | some (.floatable (.finite q)) => decide (0 < q)
   | _ => false) &&
  (match d.symbol with
   | some s => matchesSymbolRegex s
   | none => false)

/-- A Chartink payload that is well-formed except that its price is the
negative number -5. -/
def negativePricePayload : ChartinkPayload :=
  { symbol := some "RELIANCE", signal_type := some "BUY",
    price := some (.floatable (.finite (-5))), timestamp := some "t" }

/-- An inbound TradingView webhook payload, restricted to the three fields
the validator inspects. -/
structure TradingviewPayload where
  symbol : Option String
  action : Option String
  price : Option PriceField
deriving DecidableEq

/-- Model of `SignalValidator.validate_tradingview_signal`: fields
`{symbol, action, price}` present; `action` in
`['BUY', 'SELL', 'buy', 'sell']`; `float(data['price'])` does not raise
(again no sign check). -/
def validate_tradingview_signal (d : TradingviewPayload) : Bool :=
  d.symbol.isSome && d.action.isSome && d.price.isSome &&
  (d.action = some "BUY" || d.action = some "SELL" ||
   d.action = some "buy" || d.action = some "sell") &&
  (match d.price with
   | some (.floatable _) => true
   | _ => false)

/-! ## Strategy lookup (main.py `_get_matching_strategies` lines 286-298) -/

/-- Model of `SignalProcessor._get_matching_strategies`: the SQL
`SELECT * FROM strategies WHERE symbol = ? AND signal_source = ? AND
is_active = 1`, a row filter over the table in rowid order. -/
def get_matching_strategies (db : List Strategy)
    (symbol signal_source : String) : List Strategy :=
  db.filter fun st =>
    st.symbol = symbol && st.signal_source = signal_source && st.is_active

/-! ## Signal creation and execution (main.py lines 300-339) -/

/-- A row of the SQLite `signals` table as inserted by `_execute_strategy`
(`status` takes the schema default 'pending'). -/
structure SignalRec where
  strategy_id : ℤ
  signal_type : String
  symbol : String
  price : ℚ
  quantity : ℤ
  status : String
deriving DecidableEq

/-- The signal-record insert of `_execute_strategy`:
`INSERT INTO signals (strategy_id, signal_type, symbol, price, quantity)
VALUES (strategy[0], signal_type, strategy[4], price, quantity)`. -/
def mkSignalRecord (st : Strategy) (signal_type : String) (price : ℚ)
    (quantity : ℤ) : SignalRec :=
  { strategy_id := st.id, signal_type := signal_type, symbol := st.symbol,
    price := price, quantity := quantity, status := "pending" }

/-- Model of `SignalProcessor._execute_strategy` up to and including the signal
insert: size the position (which may fault on a zero price), then build the
signal row.  Returns `none` on the uncaught `ZeroDivisionError`. -/
def execute_strategy_signal (st : Strategy) (signal_type : String)
    (price : ℚ) : Option SignalRec :=
  match computeQuantity st price with
  | .ok quantity => some (mkSignalRecord st signal_type price quantity)
  | .zeroDivFault => none

/-- The trade row synthesized by `SignalProcessor._execute_paper_trade`:
`INSERT INTO trades (signal_id, broker, symbol, side, quantity, price,
status, trading_mode) VALUES (signal_id, 'paper', strategy[4], signal_type,
quantity, price, 'filled', 'paper')`.  `today` models the timestamp
column's default. -/
def mkPaperTrade (signal_id : ℤ) (st : Strategy) (signal_type : String)
    (quantity : ℤ) (price : ℚ) (today : String) : Trade :=
  { signal_id := signal_id, broker := "paper", order_id := none,
    symbol := st.symbol, side := signal_type, quantity := quantity,
    price := price, status := "filled", trading_mode := "paper",
    date := today }

/-- Model of `_execute_paper_trade` as a state transformer on the trades ledger: it
appends exactly one new row and makes no other change (and no external
call appears anywhere in its body). -/
def execute_paper_trade (ledger : List Trade) (signal_id : ℤ)
    (st : Strategy) (signal_type : String) (quantity : ℤ) (price : ℚ)
    (today : String) : List Trade × Trade :=
  let t := mkPaperTrade signal_id st signal_type quantity price today
  (ledger ++ [t], t)

/-- A concrete strategy used in several concrete evaluations: amount-sized
with position_size 10000. -/
def amountStrategy : Strategy :=
  { id := 1, name := "s1", exchange := "NSE", instrument_type := "EQ",
    symbol := "RELIANCE", signal_source := "chartink",
    position_size_type := "amount", position_size := 10000,
    order_type := "MARKET", product_type := "INTRADAY",
    stop_loss := none, target := none, trailing_stop_loss := none,
    entry_condition := none, exit_condition := none,
    is_active := true, created_at := "2025-01-01" }

/-- An amount-sized strategy whose position_size (100) is below the signal
price used against it, so the computed quantity truncates to 0. -/
def smallAmountStrategy : Strategy :=
  { amountStrategy with
    id := 2,
    signal_source := "tradingview",
    position_size := 100 }

/-- A TradingView payload with symbol ABC, action BUY and price 250, all
fields well-formed. -/
def tvPayload250 : TradingviewPayload :=
  { symbol := some "ABC", action := some "BUY",
    price := some (.floatable (.finite 250)) }

/-! ## parse_signal_time (utils.py lines 298-315)

`datetime.strptime` is modelled at the granularity of the four format
strings the source uses.  Each `%`-directive matches a digit run (exactly
four digits for `%Y`, a maximal run of one or two digits for the others,
value-checked against the directive's range), other characters match
themselves, and the whole input must be consumed; the `datetime`
constructor then validates the calendar day (month lengths, leap years)
and raises `ValueError` on an invalid date — an exception
`parse_signal_time` catches like any other format mismatch.  (CPython's
laxer treatment of whitespace runs and letter case in literals is below
the granularity of the claims and is not modelled.) -/

/-- The value a parsed timestamp denotes (the fields of a
`datetime.datetime` the four formats can set). -/
structure DateTime where
  year : ℕ
  month : ℕ
  day : ℕ
  hour : ℕ
  minute : ℕ
  second : ℕ
deriving DecidableEq

/-- One `strptime` directive appearing in the four formats, or a literal
character. -/
inductive FmtTok where
  | year4
  | month
  | day
  | hour
  | minute
  | second
  | lit (c : Char)
deriving DecidableEq

/-- Translate a `strptime` format string into directives; `none` on a `%`
code outside the six used by the source. -/
def parseFmt : List Char → Option (List FmtTok)
  | [] => some []
  | '%' :: c :: rest =>
    (match c with
     | 'Y' => some FmtTok.year4
     | 'm' => some FmtTok.month
     | 'd' => some FmtTok.day
     | 'H' => some FmtTok.hour
     | 'M' => some FmtTok.minute
     | 'S' => some FmtTok.second
     | _ => none).bind fun t => (parseFmt rest).map (t :: ·)
  | '%' :: [] => none
  | c :: rest => (parseFmt rest).map (FmtTok.lit c :: ·)

/-- Numeric value of a digit run. -/
def digitsToNat (ds : List Char) : ℕ :=
  ds.foldl (fun n c => 10 * n + (c.toNat - 48)) 0

/-- Match a one-or-two-digit directive: take the maximal digit run, require
its length in {1, 2} and its value within [lo, hi].  (In the four formats
every such directive is followed by a non-digit literal or the end of the
input, so the maximal run coincides with the regex's backtracking
behaviour.) -/
def parseNum2 (lo hi : ℕ) (cs : List Char) : Option (ℕ × List Char) :=
  let ds := cs.takeWhile Char.isDigit
  let rest := cs.dropWhile Char.isDigit
  if ds.length = 0 ∨ 2 < ds.length then none
  else
    let v := digitsToNat ds
    if lo ≤ v ∧ v ≤ hi then some (v, rest) else none

/-- Match `%Y`: exactly four digits. -/
def parseYear4 : List Char → Option (ℕ × List Char)
  | a :: b :: c :: d :: rest =>
    if a.isDigit && b.isDigit && c.isDigit && d.isDigit then
      some (digitsToNat [a, b, c, d], rest)
    else none
  | _ => none

/-- The six time fields as read off the string, before calendar
validation.  `strptime`'s defaults are 1900-01-01 00:00:00. -/
structure RawTime where
  year : ℕ := 1900
  month : ℕ := 1
  day : ℕ := 1
  hour : ℕ := 0
  minute : ℕ := 0
  second : ℕ := 0
deriving DecidableEq

/-- Run a directive list over the input; the whole input must be
consumed. -/
def runFmt : List FmtTok → List Char → RawTime → Option RawTime
  | [], [], acc => some acc
  | [], _ :: _, _ => none
  | FmtTok.lit c :: toks, cs, acc =>
    match cs with
    | x :: rest => if x = c then runFmt toks rest acc else none
    | [] => none
  | FmtTok.year4 :: toks, cs, acc =>
    match parseYear4 cs with
    | some (v, rest) => runFmt toks rest { acc with year := v }
    | none => none
  | FmtTok.month :: toks, cs, acc =>
    match parseNum2 1 12 cs with
    | some (v, rest) => runFmt toks rest { acc with month := v }
    | none => none
  | FmtTok.day :: toks, cs, acc =>
    match parseNum2 1 31 cs with
    | some (v, rest) => runFmt toks rest { acc with day := v }
    | none => none
  | FmtTok.hour :: toks, cs, acc =>
    match parseNum2 0 23 cs with
    | some (v, rest) => runFmt toks rest { acc with hour := v }
    | none => none
  | FmtTok.minute :: toks, cs, acc =>
    match parseNum2 0 59 cs with
    | some (v, rest) => runFmt toks rest { acc with minute := v }
    | none => none
  | FmtTok.second :: toks, cs, acc =>
    match parseNum2 0 59 cs with
    | some (v, rest) => runFmt toks rest { acc with second := v }
    | none => none

/-- Gregorian leap year, as `datetime` uses it. -/
def isLeapYear (y : ℕ) : Bool :=
  (y % 4 = 0 && y % 100 ≠ 0) || y % 400 = 0

/-- Length of a month, as `datetime` uses it. -/
def daysInMonth (y m : ℕ) : ℕ :=
  if m = 2 then (if isLeapYear y then 29 else 28)
  else if m = 4 ∨ m = 6 ∨ m = 9 ∨ m = 11 then 30
  else 31

/-- The `datetime.datetime` constructor's validation: year in [1, 9999]
and the day within the month; raises `ValueError` (`none`) otherwise. -/
def mkDateTime (r : RawTime) : Option DateTime :=
  if 1 ≤ r.year ∧ r.year ≤ 9999 ∧ 1 ≤ r.month ∧ r.month ≤ 12 ∧
     1 ≤ r.day ∧ r.day ≤ daysInMonth r.year r.month then
    some { year := r.year, month := r.month, day := r.day,
           hour := r.hour, minute := r.minute, second := r.second }
  else none

/-- Model of `datetime.strptime(timestamp_str, fmt)` as an `Option`: `none` is a
raised `ValueError`. -/
def strptime (fmt timestamp_str : String) : Option DateTime :=
  match parseFmt fmt.toList with
  | none => none
  | some toks =>
    match runFmt toks timestamp_str.toList {} with
    | some r => mkDateTime r
    | none => none

/-- The format list of `parse_signal_time`, in source order. -/
def signal_time_formats : List String :=
  ["%Y-%m-%d %H:%M:%S", "%Y-%m-%dT%H:%M:%S", "%Y-%m-%dT%H:%M:%SZ",
   "%d/%m/%Y %H:%M:%S"]

/-- The loop `for fmt in formats: try ... except ValueError: continue` of the source:
first successful parse wins. -/
def tryFormats : List String → String → Option DateTime
  | [], _ => none
  | f :: fs, s =>
    match strptime f s with
    | some t => some t
    | none => tryFormats fs s

/-- Model of `parse_signal_time`.  Every `ValueError` is caught, so the function is
total on strings; `now` stands for `datetime.now()`, the fallback returned
when no format matches. -/
def parse_signal_time (now : DateTime) (timestamp_str : String) : DateTime :=
  match tryFormats signal_time_formats timestamp_str with
  | some t => t
  | none => now

/-! ## Helper lemmas -/

theorem pyInt_eq_floor {q : ℚ} (h : 0 ≤ q) : pyInt q = ⌊q⌋ := by
  simp [pyInt, h]

theorem daily_pnl_eq (db : List Trade) (today : String) :
    (match dailyPnlQuery db today with
      | some p => if p = 0 then (0 : ℚ) else p
      | none => 0) = specDailyPnl db today := by
  unfold dailyPnlQuery specDailyPnl
  by_cases h : (db.filter (liveFilledOn today)).isEmpty
  · simp [h, List.isEmpty_iff.mp h]
  · simp only [h, if_false]
    by_cases h0 : ((db.filter (liveFilledOn today)).map tradePnlTerm).sum = 0
    · simp [h0]
    · simp [h0]

theorem check_daily_loss_limit_eq_decide (db : List Trade) (today : String)
    (m : ℚ) :
    check_daily_loss_limit db today m = decide (specDailyPnl db today > -m) := by
  unfold check_daily_loss_limit
  dsimp only
  rw [daily_pnl_eq]

/-! ## Claims -/

/-- C1: `check_daily_loss_limit` passes exactly when the day's realized
P&L over live, filled trades — `Σ (price*quantity) * (+1 if side = SELL
else -1)`, a missing (NULL) sum read as 0 — exceeds `-max_daily_loss`, and
fails exactly when that P&L is ≤ `-max_daily_loss`; paper trades are
excluded by the `trading_mode = 'live'` filter.  On the worked example
(live filled SELL qty=10 price=100 and BUY qty=5 price=100, limit 10000)
the P&L is 500 and the check passes. -/
theorem check_daily_loss_limit_spec (db : List Trade) (today : String)
    (m : ℚ) :
    (check_daily_loss_limit db today m = false ↔
      specDailyPnl db today ≤ -m) ∧
    (check_daily_loss_limit db today m = true ↔
      specDailyPnl db today > -m) ∧
    specDailyPnl exampleDayTrades "2025-01-02" = 500 ∧
    check_daily_loss_limit exampleDayTrades "2025-01-02" 10000 = true := by
  have hex : specDailyPnl exampleDayTrades "2025-01-02" = 500 := by
    simp [specDailyPnl, exampleDayTrades, tradePnlTerm, liveFilledOn]
    norm_num
  refine ⟨?_, ?_, hex, ?_⟩
  · rw [check_daily_loss_limit_eq_decide]
    simp [not_lt]
  · rw [check_daily_loss_limit_eq_decide]
    simp
  · rw [check_daily_loss_limit_eq_decide, hex]
    norm_num

/-- C4: `check_symbol_allowed` returns false exactly when the symbol lies
in a non-empty block list, or the allow list is non-empty and the symbol
is absent from it; the empty allow list permits every symbol.  The three
worked examples from the spec are checked concretely. -/
theorem check_symbol_allowed_spec (symbol : String)
    (allowed blocked : List String) :
    (check_symbol_allowed symbol allowed blocked = false ↔
      (blocked ≠ [] ∧ symbol ∈ blocked) ∨
      (allowed ≠ [] ∧ symbol ∉ allowed)) ∧
    check_symbol_allowed "XYZ" [] ["XYZ"] = false ∧
    check_symbol_allowed "XYZ" ["ABC"] [] = false ∧
    check_symbol_allowed "XYZ" [] [] = true := by
  refine ⟨?_, by decide, by decide, by decide⟩
  unfold check_symbol_allowed
  by_cases hb : blocked ≠ [] ∧ symbol ∈ blocked
  · simp [hb]
  · by_cases ha : allowed ≠ [] ∧ symbol ∉ allowed
    · simp [hb, ha]
    · simp [hb, ha]

/-- C2: for a strategy with positive position size, sizing at a positive
price yields `floor(position_size / price)` under amount sizing (the
source's truncation toward zero coincides with floor on the non-negative
quotient), and the position-size value truncated toward zero under
quantity sizing; in particular position_size 10000 at price 250 yields
quantity 40. -/
theorem computeQuantity_spec (st : Strategy) (price : ℚ)
    (hps : 0 < st.position_size) (hp : 0 < price) :
    (st.position_size_type = "amount" →
      computeQuantity st price = .ok ⌊st.position_size / price⌋) ∧
    (st.position_size_type = "quantity" →
      computeQuantity st price = .ok (pyInt st.position_size)) ∧
    computeQuantity amountStrategy 250 = .ok 40 := by
  refine ⟨?_, ?_, ?_⟩
  · intro hty
    have hne : st.position_size_type ≠ "quantity" := by
      rw [hty]; decide
    have hq : (0 : ℚ) ≤ st.position_size / price :=
      div_nonneg hps.le hp.le
    simp [computeQuantity, hne, hp.ne.symm, pyInt_eq_floor hq]
  · intro hty
    simp [computeQuantity, hty]
  · have h40 : pyInt ((10000 : ℚ) / 250) = 40 := by
      have : ((10000 : ℚ) / 250) = 40 := by norm_num
      rw [this, pyInt]
      norm_num
    simp [computeQuantity, amountStrategy, h40]

/-- Witness for C2 at the concrete strategy `amountStrategy` and price
250. -/
theorem computeQuantity_spec_witness :
    computeQuantity amountStrategy 250 = .ok 40 :=
  (computeQuantity_spec amountStrategy 250 (by norm_num [amountStrategy])
    (by norm_num)).2.2

/-- C3 counterexample: at the non-positive price -250, the amount-sizing
step of `_execute_strategy` does not fail with a `SizingError` — it
produces the ordinary quantity `int(10000 / -250) = -40`.  (At price
exactly 0 it raises an uncaught `ZeroDivisionError`; no `SizingError`
exists anywhere in the source.) -/
theorem computeQuantity_guard_counterexample :
    computeQuantity amountStrategy (-250) = .ok (-40) ∧ (-250 : ℚ) ≤ 0 := by
  constructor
  · have hv : ((10000 : ℚ) / (-250)) = -40 := by norm_num
    have hneg : ¬ (0 : ℚ) ≤ (10000 : ℚ) / (-250) := by rw [hv]; norm_num
    have h : pyInt ((10000 : ℚ) / (-250)) = -40 := by
      rw [pyInt, if_neg hneg, hv]
      have hc : ((-40 : ℚ)) = ((-40 : ℤ) : ℚ) := by norm_num
      rw [hc, Int.ceil_intCast]
    simp [computeQuantity, amountStrategy, h]
  · norm_num

/-- C3 amended: the division in the amount-sizing branch is unguarded.  At
price exactly 0 the code raises an uncaught `ZeroDivisionError`
(`zeroDivFault`), and at any negative price it returns the truncated
quotient as a normal result; no `SizingError` branch exists. -/
theorem computeQuantity_unguarded (st : Strategy) (price : ℚ)
    (hty : st.position_size_type = "amount") (hneg : price < 0) :
    computeQuantity st 0 = .zeroDivFault ∧
    computeQuantity st price = .ok (pyInt (st.position_size / price)) := by
  have hne : st.position_size_type ≠ "quantity" := by
    rw [hty]; decide
  constructor
  · simp [computeQuantity, hne]
  · simp [computeQuantity, hne, hneg.ne]

/-- Witness for C3's amended statement at `amountStrategy` and price
-250. -/
theorem computeQuantity_unguarded_witness :
    computeQuantity amountStrategy 0 = .zeroDivFault ∧
    computeQuantity amountStrategy (-250) =
      .ok (pyInt (amountStrategy.position_size / (-250))) :=
  computeQuantity_unguarded amountStrategy (-250) (by rfl) (by norm_num)

/-- C9: for positive amount and price and a lot size ≥ 1,
`calculate_quantity_from_amount` equals
`(floor(amount / price) // lot_size) * lot_size`; the result is a multiple
of the lot size, non-negative, at most `floor(amount / price)`, and at lot
size 1 it is exactly `floor(amount / price)`. -/
theorem calculate_quantity_from_amount_spec (amount price : ℚ)
    (lot_size : ℤ) (ha : 0 < amount) (hp : 0 < price) (hl : 1 ≤ lot_size) :
    calculate_quantity_from_amount amount price lot_size =
      (⌊amount / price⌋.fdiv lot_size) * lot_size ∧
    lot_size ∣ calculate_quantity_from_amount amount price lot_size ∧
    0 ≤ calculate_quantity_from_amount amount price lot_size ∧
    calculate_quantity_from_amount amount price lot_size ≤
      ⌊amount / price⌋ ∧
    calculate_quantity_from_amount amount price 1 = ⌊amount / price⌋ := by
  have hq : (0 : ℚ) ≤ amount / price := div_nonneg ha.le hp.le
  have hbase : pyInt (amount / price) = ⌊amount / price⌋ := pyInt_eq_floor hq
  have heq : calculate_quantity_from_amount amount price lot_size =
      (⌊amount / price⌋.fdiv lot_size) * lot_size := by
    unfold calculate_quantity_from_amount
    rw [hbase]
  have hl0 : (0 : ℤ) ≤ lot_size := le_trans (by norm_num) hl
  have hlne : lot_size ≠ 0 := by omega
  have hfl : (0 : ℤ) ≤ ⌊amount / price⌋ := Int.floor_nonneg.mpr hq
  refine ⟨heq, ?_, ?_, ?_, ?_⟩
  · rw [heq]
    exact dvd_mul_left lot_size (⌊amount / price⌋.fdiv lot_size)
  · rw [heq]
    exact mul_nonneg (Int.fdiv_nonneg hfl hl0) hl0
  · rw [heq, Int.fdiv_eq_ediv _ hl0]
    exact Int.ediv_mul_le ⌊amount / price⌋ hlne
  · unfold calculate_quantity_from_amount
    dsimp only
    rw [hbase, Int.fdiv_one, mul_one]

/-- Witness for C9 at amount 10000, price 250, lot size 3 (base quantity
40, result 39). -/
theorem calculate_quantity_from_amount_spec_witness :
    calculate_quantity_from_amount 10000 250 3 =
      (⌊(10000 : ℚ) / 250⌋.fdiv 3) * 3 :=
  (calculate_quantity_from_amount_spec 10000 250 3 (by norm_num)
    (by norm_num) (by norm_num)).1

/-- C5 counterexample: a Chartink payload whose price is the negative
number -5 but is otherwise well-formed passes
`validate_chartink_signal`, although the claim's condition (price a
positive finite number) rejects it: the source never checks the sign or
finiteness of the parsed price. -/
theorem validate_chartink_counterexample :
    validate_chartink_signal negativePricePayload = true ∧
    chartinkClaimValid negativePricePayload = false := by
  constructor
  · decide
  · simp [chartinkClaimValid, negativePricePayload]

/-- C5 amended: `validate_chartink_signal` succeeds exactly when the four
fields {symbol, signal_type, price, timestamp} are present, `signal_type`
is exactly BUY or SELL, `float(price)` succeeds (sign and finiteness are
NOT checked — negative, zero, infinite and NaN prices all pass), and the
symbol matches `^[A-Z0-9_-]+$`; in particular any payload missing a
required field fails. -/
theorem validate_chartink_spec (d : ChartinkPayload) :
    validate_chartink_signal d = true ↔
      (d.symbol.isSome ∧ d.signal_type.isSome ∧ d.price.isSome ∧
       d.timestamp.isSome ∧
       (d.signal_type = some "BUY" ∨ d.signal_type = some "SELL") ∧
       (∃ v, d.price = some (PriceField.floatable v)) ∧
       (∃ s, d.symbol = some s ∧ matchesSymbolRegex s = true)) := by
  obtain ⟨os, oty, op, ots⟩ := d
  rcases op with _ | pf
  · cases os <;> cases oty <;> cases ots <;>
      simp [validate_chartink_signal]
  · rcases pf with v | _
    · cases os <;> cases oty <;> cases ots <;>
        simp [validate_chartink_signal, and_assoc]
    · cases os <;> cases oty <;> cases ots <;>
        simp [validate_chartink_signal]

/-- C6 counterexample: the TradingView payload (symbol ABC, action BUY,
price 250) passes validation, and the matching amount-sized strategy with
position_size 100 produces a Signal record with quantity
`int(100 / 250) = 0` — not positive, so the pipeline does not guarantee
`quantity > 0` on its records. -/
theorem pipeline_positive_counterexample :
    validate_tradingview_signal tvPayload250 = true ∧
    execute_strategy_signal smallAmountStrategy "BUY" 250 =
      some { strategy_id := 2, signal_type := "BUY", symbol := "RELIANCE",
             price := 250, quantity := 0, status := "pending" } ∧
    ¬ (0 : ℤ) <
      (SignalRec.mk 2 "BUY" "RELIANCE" 250 0 "pending").quantity := by
  refine ⟨by decide, ?_, by norm_num⟩
  have hq : pyInt ((100 : ℚ) / 250) = 0 := by
    have h1 : (0 : ℚ) ≤ 100 / 250 := by norm_num
    rw [pyInt_eq_floor h1, Int.floor_eq_iff]
    norm_num
  simp [execute_strategy_signal, computeQuantity, smallAmountStrategy,
    amountStrategy, mkSignalRecord, hq]

/-- C6 amended: positivity of the Signal and Trade records holds only
conditionally — when the signal price is positive and the strategy's
position size is at least 1 (quantity sizing) resp. at least the price
(amount sizing), every Signal record the pipeline inserts, and the paper
Trade built from it, has quantity > 0 and price > 0.  Unconditionally the
claim fails: tradingview validation passes non-positive prices and amount
sizing can truncate to quantity 0. -/
theorem pipeline_positive_amended (st : Strategy) (signal_type : String)
    (price : ℚ) (sig : SignalRec) (hp : 0 < price)
    (hps : if st.position_size_type = "quantity" then 1 ≤ st.position_size
           else price ≤ st.position_size)
    (hs : execute_strategy_signal st signal_type price = some sig)
    (ledger : List Trade) (signal_id : ℤ) (today : String) :
    0 < sig.quantity ∧ 0 < sig.price ∧
    0 < (execute_paper_trade ledger signal_id st signal_type sig.quantity
          sig.price today).2.quantity ∧
    0 < (execute_paper_trade ledger signal_id st signal_type sig.quantity
          sig.price today).2.price := by
  have hmain : 0 < sig.quantity ∧ 0 < sig.price := by
    by_cases hty : st.position_size_type = "quantity"
    · rw [if_pos hty] at hps
      unfold execute_strategy_signal computeQuantity at hs
      rw [if_pos hty] at hs
      simp only [Option.some.injEq] at hs
      have hq : 0 < pyInt st.position_size := by
        rw [pyInt_eq_floor (le_trans (by norm_num) hps)]
        have : (1 : ℤ) ≤ ⌊st.position_size⌋ := by
          rw [Int.le_floor]
          exact_mod_cast hps
        omega
      rw [← hs]
      exact ⟨hq, hp⟩
    · rw [if_neg hty] at hps
      unfold execute_strategy_signal computeQuantity at hs
      rw [if_neg hty, if_neg (by positivity : price ≠ 0)] at hs
      simp only [Option.some.injEq] at hs
      have hq1 : (1 : ℚ) ≤ st.position_size / price :=
        (one_le_div hp).mpr hps
      have hq : 0 < pyInt (st.position_size / price) := by
        rw [pyInt_eq_floor (le_trans (by norm_num) hq1)]
        have : (1 : ℤ) ≤ ⌊st.position_size / price⌋ := by
          rw [Int.le_floor]
          exact_mod_cast hq1
        omega
      rw [← hs]
      exact ⟨hq, hp⟩
  exact ⟨hmain.1, hmain.2, hmain.1, hmain.2⟩

/-- Witness for C6's amended statement: `amountStrategy` (position_size
10000) at price 250 yields a Signal with quantity 40 and price 250, both
positive, as is the paper Trade built from them. -/
theorem pipeline_positive_amended_witness :
    0 < (SignalRec.mk 1 "BUY" "RELIANCE" 250 40 "pending").quantity ∧
    0 < (SignalRec.mk 1 "BUY" "RELIANCE" 250 40 "pending").price ∧
    0 < (execute_paper_trade [] 7 amountStrategy "BUY"
          (SignalRec.mk 1 "BUY" "RELIANCE" 250 40 "pending").quantity
          (SignalRec.mk 1 "BUY" "RELIANCE" 250 40 "pending").price
          "2025-01-02").2.quantity ∧
    0 < (execute_paper_trade [] 7 amountStrategy "BUY"
          (SignalRec.mk 1 "BUY" "RELIANCE" 250 40 "pending").quantity
          (SignalRec.mk 1 "BUY" "RELIANCE" 250 40 "pending").price
          "2025-01-02").2.price :=
  pipeline_positive_amended amountStrategy "BUY" 250
    (SignalRec.mk 1 "BUY" "RELIANCE" 250 40 "pending")
    (by norm_num)
    (by norm_num [amountStrategy])
    (by
      have h40 : pyInt ((10000 : ℚ) / 250) = 40 := by
        have h : ((10000 : ℚ) / 250) = 40 := by norm_num
        rw [h, pyInt]
        norm_num
      simp [execute_strategy_signal, computeQuantity, amountStrategy,
        mkSignalRecord, h40])
    [] 7 "2025-01-02"

/-- C7: the paper path always succeeds and is deterministic — for every
(signal, strategy) input it synthesizes a Trade with broker "paper",
status "filled" and trading_mode "paper" whose field values do not depend
on the ledger state, and each call appends exactly that one new row to
the ledger (no external call exists in its body, which is modelled by
`execute_paper_trade` being a pure function of its arguments). -/
theorem execute_paper_trade_spec (ledger ledger2 : List Trade)
    (signal_id : ℤ) (st : Strategy) (signal_type : String) (quantity : ℤ)
    (price : ℚ) (today : String) :
    (execute_paper_trade ledger signal_id st signal_type quantity price
      today).2.broker = "paper" ∧
    (execute_paper_trade ledger signal_id st signal_type quantity price
      today).2.status = "filled" ∧
    (execute_paper_trade ledger signal_id st signal_type quantity price
      today).2.trading_mode = "paper" ∧
    (execute_paper_trade ledger signal_id st signal_type quantity price
      today).2 =
      (execute_paper_trade ledger2 signal_id st signal_type quantity price
        today).2 ∧
    (execute_paper_trade ledger signal_id st signal_type quantity price
      today).1 =
      ledger ++ [(execute_paper_trade ledger signal_id st signal_type
        quantity price today).2] :=
  ⟨rfl, rfl, rfl, rfl, rfl⟩

/-- C8: the strategy lookup returns exactly the strategies matching the
symbol and signal source whose active flag is set; on a table in
id-ascending (insertion) order the result is id-ascending; and when
nothing matches it returns the empty list rather than an error. -/
theorem get_matching_strategies_spec (db : List Strategy)
    (symbol signal_source : String)
    (hsorted : db.Pairwise fun a b => a.id < b.id) :
    (∀ st, st ∈ get_matching_strategies db symbol signal_source ↔
      st ∈ db ∧ st.symbol = symbol ∧ st.signal_source = signal_source ∧
      st.is_active = true) ∧
    (get_matching_strategies db symbol signal_source).Pairwise
      (fun a b => a.id < b.id) ∧
    ((∀ st ∈ db, ¬(st.symbol = symbol ∧ st.signal_source = signal_source ∧
        st.is_active = true)) →
      get_matching_strategies db symbol signal_source = []) := by
  refine ⟨?_, ?_, ?_⟩
  · intro st
    simp [get_matching_strategies, List.mem_filter, and_assoc]
  · exact hsorted.sublist (List.filter_sublist db)
  · intro h
    refine List.filter_eq_nil_iff.mpr ?_
    intro st hst
    have hns := h st hst
    simp only [Bool.and_eq_true, decide_eq_true_eq]
    tauto

/-- Witness for C8 on a concrete two-row strategy table in id order. -/
theorem get_matching_strategies_spec_witness :
    (get_matching_strategies [amountStrategy, smallAmountStrategy]
      "RELIANCE" "chartink").Pairwise (fun a b => a.id < b.id) :=
  (get_matching_strategies_spec [amountStrategy, smallAmountStrategy]
    "RELIANCE" "chartink"
    (by simp [amountStrategy, smallAmountStrategy])).2.1

/-- C10: `parse_signal_time` is total on strings — it tries the four
formats `%Y-%m-%d %H:%M:%S`, `%Y-%m-%dT%H:%M:%S`, `%Y-%m-%dT%H:%M:%SZ`,
`%d/%m/%Y %H:%M:%S` in that order, returning the first successful parse,
and when every format fails (every `ValueError` being caught) it silently
returns the current time instead of reporting an error.  Two concrete
parses and one concrete fallback are checked. -/
theorem parse_signal_time_spec (now : DateTime) (s : String) :
    parse_signal_time now s =
      (match strptime "%Y-%m-%d %H:%M:%S" s with
       | some t => t
       | none =>
         match strptime "%Y-%m-%dT%H:%M:%S" s with
         | some t => t
         | none =>
           match strptime "%Y-%m-%dT%H:%M:%SZ" s with
           | some t => t
           | none =>
             match strptime "%d/%m/%Y %H:%M:%S" s with
             | some t => t
             | none => now) ∧
    parse_signal_time now "2024-03-05T10:20:30Z" =
      ⟨2024, 3, 5, 10, 20, 30⟩ ∧
    parse_signal_time now "05/03/2024 10:20:30" =
      ⟨2024, 3, 5, 10, 20, 30⟩ ∧
    parse_signal_time now "not a time" = now := by
  refine ⟨?_, ?_, ?_, ?_⟩
  · simp only [parse_signal_time, signal_time_formats]
    rcases h1 : strptime "%Y-%m-%d %H:%M:%S" s with _ | t1 <;>
      rcases h2 : strptime "%Y-%m-%dT%H:%M:%S" s with _ | t2 <;>
        rcases h3 : strptime "%Y-%m-%dT%H:%M:%SZ" s with _ | t3 <;>
          rcases h4 : strptime "%d/%m/%Y %H:%M:%S" s with _ | t4 <;>
            simp [tryFormats, h1, h2, h3, h4]
  · have h : tryFormats signal_time_formats "2024-03-05T10:20:30Z" =
        some ⟨2024, 3, 5, 10, 20, 30⟩ := by decide
    simp [parse_signal_time, h]
  · have h : tryFormats signal_time_formats "05/03/2024 10:20:30" =
        some ⟨2024, 3, 5, 10, 20, 30⟩ := by decide
    simp [parse_signal_time, h]
  · have h : tryFormats signal_time_formats "not a time" = none := by
      decide
    simp [parse_signal_time, h]

end TradingPlatform
